import Mathlib

/-!
Shallow embedding of the Fiery-Tools/sendmail mail module.

Two JavaScript modules define the same thin wrapper around nodemailer:
`src/index.js` and the copy embedded in the setup guide
(`src/unnamed/part_001`).  Each constructs one transport object at module
load (`nodemailer.createTransport({...})`) and exports an async function
`mail(to, from, subject, html)` that submits one message through that
transport, logs one console line, and returns the library's info object or
rethrows the library's error unchanged.

The embedding makes the effects explicit: a call produces a result
(`Except ε Info`, mirroring resolve/reject of the returned promise) and a
trace of events (transport construction, network submission, console
lines).  The behaviour of the underlying SMTP transport is an oracle of
type `MailOptions α → Except ε Info`; the argument type `α` is kept
abstract because the module applies no operation to the four arguments
other than storing them in the message object handed to the transport.
-/

/-- The `tls` options object passed to `createTransport`; only the field the
source uses is modelled. -/
structure TlsConfig where
  rejectUnauthorized : Bool
  deriving DecidableEq

/-- The configuration object passed to `nodemailer.createTransport`.
`tls := none` means the source passes no `tls` key at all. -/
structure TransportConfig where
  host : String
  port : Nat
  secure : Bool
  tls : Option TlsConfig
  deriving DecidableEq

/-- A configuration relaxes certificate validation exactly when it passes
`tls.rejectUnauthorized = false` to the constructor; with no `tls` key the
underlying library keeps its strict default (the guide in
`src/unnamed/part_000` states the option is what prevents failure on the
local self-signed certificate). -/
def certValidationRelaxed (cfg : TransportConfig) : Bool :=
  match cfg.tls with
  | some t => !t.rejectUnauthorized
  | none => false

/-- The message object literal `{ from, to, subject, html }` handed to
`transporter.sendMail`. -/
structure MailOptions (α : Type) where
  «from» : α
  «to» : α
  subject : α
  html : α
  deriving DecidableEq

/-- The fulfillment value of `transporter.sendMail`: the field of
nodemailer's info object that the module reads (`messageId`), together with
the transport's acceptance line. -/
structure Info where
  messageId : String
  response : String
  deriving DecidableEq

/-- Observable effects of loading a module and calling `mail`:
construction of the transport object, one network submission through a
given configuration, and the two console statements of the source. -/
inductive Event (α ε : Type) where
  | createTransport (cfg : TransportConfig)
  | send (cfg : TransportConfig) (msg : MailOptions α)
  | logSent (messageId : String)
  | logError (e : ε)

/-- Recognises a network submission event. -/
def isSend {α ε : Type} : Event α ε → Bool
  | .send _ _ => true
  | _ => false

/-- Recognises a console line (either `console.log` or `console.error`). -/
def isLog {α ε : Type} : Event α ε → Bool
  | .logSent _ => true
  | .logError _ => true
  | _ => false

/-- Recognises a transport-construction event. -/
def isCreateTransport {α ε : Type} : Event α ε → Bool
  | .createTransport _ => true
  | _ => false

/-- The messages submitted over the network in a trace, in order. -/
def sentMessages {α ε : Type} (tr : List (Event α ε)) : List (MailOptions α) :=
  tr.filterMap fun ev => match ev with
    | .send _ m => some m
    | _ => none

/-- The configurations used by the network submissions of a trace. -/
def sendConfigs {α ε : Type} (tr : List (Event α ε)) : List TransportConfig :=
  tr.filterMap fun ev => match ev with
    | .send c _ => some c
    | _ => none

/-- The console lines of a trace, in order. -/
def consoleLines {α ε : Type} (tr : List (Event α ε)) : List (Event α ε) :=
  tr.filter isLog

namespace IndexJs

/-- `src/index.js` lines 4-8: the object literal passed to
`nodemailer.createTransport`; no `tls` key is passed. -/
def transporter : TransportConfig :=
  { host := "localhost", port := 25, secure := false, tls := none }

/-- Module load runs `nodemailer.createTransport` exactly once. -/
def moduleEvents (α ε : Type) : List (Event α ε) :=
  [Event.createTransport transporter]

/-- `transporter.sendMail(msg)`: one network submission through the
module-level transport object; the oracle decides acceptance. -/
def sendMail {α ε : Type} (transport : MailOptions α → Except ε Info)
    (msg : MailOptions α) : Except ε Info × List (Event α ε) :=
  (transport msg, [Event.send transporter msg])

/-- `src/index.js` lines 17-31: build `{ from, to, subject, html }` from the
four arguments, await `transporter.sendMail`, then either log the message id
and return the info object, or log the error and rethrow it. -/
def mail {α ε : Type} (transport : MailOptions α → Except ε Info)
    («to» «from» subject html : α) : Except ε Info × List (Event α ε) :=
  let msg : MailOptions α := { «from» := «from», «to» := «to», subject := subject, html := html }
  let r := sendMail transport msg
  match r.1 with
  | Except.ok info => (Except.ok info, r.2 ++ [Event.logSent info.messageId])
  | Except.error e => (Except.error e, r.2 ++ [Event.logError e])

end IndexJs

namespace Part001

/-- `src/unnamed/part_001` lines 4-12: same constructor call as
`src/index.js` except for the additional `tls.rejectUnauthorized = false`. -/
def transporter : TransportConfig :=
  { host := "localhost", port := 25, secure := false,
    tls := some { rejectUnauthorized := false } }

/-- Module load runs `nodemailer.createTransport` exactly once. -/
def moduleEvents (α ε : Type) : List (Event α ε) :=
  [Event.createTransport transporter]

/-- `transporter.sendMail(msg)` of the guide's module. -/
def sendMail {α ε : Type} (transport : MailOptions α → Except ε Info)
    (msg : MailOptions α) : Except ε Info × List (Event α ε) :=
  (transport msg, [Event.send transporter msg])

/-- `src/unnamed/part_001` lines 21-36: textually the same function body as
`src/index.js`, bound to this module's transport object. -/
def mail {α ε : Type} (transport : MailOptions α → Except ε Info)
    («to» «from» subject html : α) : Except ε Info × List (Event α ε) :=
  let msg : MailOptions α := { «from» := «from», «to» := «to», subject := subject, html := html }
  let r := sendMail transport msg
  match r.1 with
  | Except.ok info => (Except.ok info, r.2 ++ [Event.logSent info.messageId])
  | Except.error e => (Except.error e, r.2 ++ [Event.logError e])

end Part001

/-- Two sequential calls of `src/index.js`'s `mail` with the same arguments:
results paired, traces concatenated. -/
def mailTwice {α ε : Type} (transport : MailOptions α → Except ε Info)
    («to» «from» subject html : α) :
    (Except ε Info × Except ε Info) × List (Event α ε) :=
  let r1 := IndexJs.mail transport «to» «from» subject html
  let r2 := IndexJs.mail transport «to» «from» subject html
  ((r1.1, r2.1), r1.2 ++ r2.2)

/-- Claim C1: when the transport accepts the submitted message, `mail`
resolves successfully and the returned value carries exactly the
transport-assigned message id, which is non-empty whenever the transport
assigns a non-empty id. -/
theorem mail_success_returns_transport_message_id {ε : Type}
    (transport : MailOptions String → Except ε Info)
    («to» «from» subject html : String) (info : Info)
    (hacc : transport { «from» := «from», «to» := «to», subject := subject, html := html }
      = Except.ok info)
    (hid : info.messageId ≠ "") :
    ∃ i, (IndexJs.mail transport «to» «from» subject html).1 = Except.ok i ∧
      i.messageId = info.messageId ∧ i.messageId ≠ "" := by
  refine ⟨info, ?_, rfl, hid⟩
  simp [IndexJs.mail, IndexJs.sendMail, hacc]

/-- Claim C1 witness: a transport accepting every message with the id
string "Lt1At-localhost-Gt" resolves the call with that non-empty id. -/
theorem mail_success_returns_transport_message_id_witness :
    ∃ i, (IndexJs.mail
        (fun _ => (Except.ok ⟨"id-1-localhost", "250 2.0.0 Ok"⟩ : Except String Info))
        "a@example.com" "b@example.org" "hi" "<p>hi</p>").1 = Except.ok i ∧
      i.messageId = "id-1-localhost" ∧ i.messageId ≠ "" :=
  mail_success_returns_transport_message_id
    (fun _ => (Except.ok ⟨"id-1-localhost", "250 2.0.0 Ok"⟩ : Except String Info))
    "a@example.com" "b@example.org" "hi" "<p>hi</p>"
    ⟨"id-1-localhost", "250 2.0.0 Ok"⟩ rfl (by decide)

/-- Claim C2: on any transport failure the call rejects with the identical
error value, and the whole observable behaviour is exactly one submission
followed by one error log of that same value; the failure is never reported
as success. -/
theorem mail_failure_logged_once_and_rethrown {α ε : Type}
    (transport : MailOptions α → Except ε Info)
    («to» «from» subject html : α) (e : ε)
    (herr : transport { «from» := «from», «to» := «to», subject := subject, html := html }
      = Except.error e) :
    IndexJs.mail transport «to» «from» subject html =
      (Except.error e,
       [Event.send IndexJs.transporter
          { «from» := «from», «to» := «to», subject := subject, html := html },
        Event.logError e]) := by
  simp [IndexJs.mail, IndexJs.sendMail, herr]

/-- Claim C2 witness: a transport refusing every connection with the error
string "ECONNREFUSED" makes the call reject with that exact value after one
submission and one error log. -/
theorem mail_failure_logged_once_and_rethrown_witness :
    IndexJs.mail (fun _ => (Except.error "ECONNREFUSED" : Except String Info))
        "a@example.com" "b@example.org" "hi" "<p>hi</p>" =
      (Except.error "ECONNREFUSED",
       [Event.send IndexJs.transporter
          { «from» := "b@example.org", «to» := "a@example.com",
            subject := "hi", html := "<p>hi</p>" },
        Event.logError "ECONNREFUSED"]) :=
  mail_failure_logged_once_and_rethrown
    (fun _ => (Except.error "ECONNREFUSED" : Except String Info))
    "a@example.com" "b@example.org" "hi" "<p>hi</p>" "ECONNREFUSED" rfl

/-- Claim C3: certificate validation is not relaxed in the configuration of
`src/index.js`, which passes no `tls` key, although the guide's module
passes `rejectUnauthorized := false` and the guide calls that option
crucial for the local self-signed certificate. -/
theorem index_config_does_not_relax_cert_validation :
    certValidationRelaxed IndexJs.transporter = false ∧
    IndexJs.transporter.tls = none ∧
    certValidationRelaxed Part001.transporter = true := by
  refine ⟨rfl, rfl, rfl⟩

/-- Claim C4: each call submits exactly one message, whose four fields are
exactly the four arguments, unmodified; the statement is uniform in the
argument type, so the layer inspects or validates nothing about the
values. -/
theorem mail_submits_fields_verbatim {α ε : Type}
    (transport : MailOptions α → Except ε Info) («to» «from» subject html : α) :
    sentMessages (IndexJs.mail transport «to» «from» subject html).2 =
      [{ «from» := «from», «to» := «to», subject := subject, html := html }] := by
  cases h : transport { «from» := «from», «to» := «to», subject := subject, html := html } <;>
    simp [IndexJs.mail, IndexJs.sendMail, sentMessages, h]

/-- Claim C5: both modules construct the transport exactly once at load,
with host "localhost", port 25 and `secure := false` (plaintext connection
that may negotiate encryption afterwards); every submission of every call
reuses exactly that configuration and no call constructs another
transport. -/
theorem transporter_constructed_once_fixed_and_reused {α ε : Type}
    (transport : MailOptions α → Except ε Info) («to» «from» subject html : α) :
    IndexJs.moduleEvents α ε = [Event.createTransport IndexJs.transporter] ∧
    IndexJs.transporter.host = "localhost" ∧
    IndexJs.transporter.port = 25 ∧
    IndexJs.transporter.secure = false ∧
    sendConfigs (IndexJs.mail transport «to» «from» subject html).2 =
      [IndexJs.transporter] ∧
    (IndexJs.mail transport «to» «from» subject html).2.countP isCreateTransport = 0 ∧
    Part001.moduleEvents α ε = [Event.createTransport Part001.transporter] ∧
    Part001.transporter.host = "localhost" ∧
    Part001.transporter.port = 25 ∧
    Part001.transporter.secure = false ∧
    sendConfigs (Part001.mail transport «to» «from» subject html).2 =
      [Part001.transporter] ∧
    (Part001.mail transport «to» «from» subject html).2.countP isCreateTransport = 0 := by
  cases h : transport { «from» := «from», «to» := «to», subject := subject, html := html } <;>
    simp [IndexJs.mail, IndexJs.sendMail, IndexJs.moduleEvents, IndexJs.transporter,
      Part001.mail, Part001.sendMail, Part001.moduleEvents, Part001.transporter,
      sendConfigs, isCreateTransport, h, List.countP_cons]

/-- Claim C6: one call performs exactly one network submission and prints
exactly one console line, in the success case and in the failure case
alike. -/
theorem mail_one_send_one_log {α ε : Type}
    (transport : MailOptions α → Except ε Info) («to» «from» subject html : α) :
    (IndexJs.mail transport «to» «from» subject html).2.countP isSend = 1 ∧
    (IndexJs.mail transport «to» «from» subject html).2.countP isLog = 1 := by
  cases h : transport { «from» := «from», «to» := «to», subject := subject, html := html } <;>
    simp [IndexJs.mail, IndexJs.sendMail, isSend, isLog, h, List.countP_cons]

/-- Claim C7: calling `mail` twice with identical arguments submits the
identical message twice: two independent delivery attempts, with no
deduplication, memoization or suppression of the repeat. -/
theorem mail_twice_two_independent_submissions {α ε : Type}
    (transport : MailOptions α → Except ε Info) («to» «from» subject html : α) :
    sentMessages (mailTwice transport «to» «from» subject html).2 =
      [{ «from» := «from», «to» := «to», subject := subject, html := html },
       { «from» := «from», «to» := «to», subject := subject, html := html }] ∧
    (mailTwice transport «to» «from» subject html).2.countP isSend = 2 := by
  cases h : transport { «from» := «from», «to» := «to», subject := subject, html := html } <;>
    simp [mailTwice, IndexJs.mail, IndexJs.sendMail, sentMessages, isSend, h,
      List.countP_cons]

/-- Claim C9: for every transport behaviour and every argument tuple the
two modules resolve or reject identically, submit the same message and
print the same console lines; their constructor configurations agree on
every field except the `tls` certificate-validation option, where they
differ. -/
theorem index_part001_mail_equivalent {α ε : Type}
    (transport : MailOptions α → Except ε Info) («to» «from» subject html : α) :
    (IndexJs.mail transport «to» «from» subject html).1 =
      (Part001.mail transport «to» «from» subject html).1 ∧
    sentMessages (IndexJs.mail transport «to» «from» subject html).2 =
      sentMessages (Part001.mail transport «to» «from» subject html).2 ∧
    consoleLines (IndexJs.mail transport «to» «from» subject html).2 =
      consoleLines (Part001.mail transport «to» «from» subject html).2 ∧
    { IndexJs.transporter with tls := Part001.transporter.tls } = Part001.transporter ∧
    IndexJs.transporter.tls ≠ Part001.transporter.tls := by
  refine ⟨?_, ?_, ?_, rfl, by decide⟩ <;>
    cases h : transport { «from» := «from», «to» := «to», subject := subject, html := html } <;>
      simp [IndexJs.mail, IndexJs.sendMail, Part001.mail, Part001.sendMail,
        sentMessages, consoleLines, isLog, h]

/-- Claim C10: the outcome of a call is exactly the outcome of the
transport on the forwarded message: the wrapper raises no error of its own
and checks nothing about the arguments, uniformly in the argument type, so
in particular also for empty strings or absent values. -/
theorem mail_result_is_transport_result {α ε : Type}
    (transport : MailOptions α → Except ε Info) («to» «from» subject html : α) :
    (IndexJs.mail transport «to» «from» subject html).1 =
      transport { «from» := «from», «to» := «to», subject := subject, html := html } := by
  cases h : transport { «from» := «from», «to» := «to», subject := subject, html := html } <;>
    simp [IndexJs.mail, IndexJs.sendMail, h]
